import Mathlib

/-!
Shallow embedding of the ha_lumagen Home Assistant integration
(custom_components/ha_lumagen): the event-driven coordinator
(coordinator.py), input selection (select.py), remote command gating
(remote.py) and the optimistic power switch (switch.py), together with
proofs of the behavioural properties stated about them.
-/

namespace Lumagen

/-- Device status enumeration (lumagen.constants.DeviceStatus): the device is
either in standby, active, or in some other/transitional state. -/
inductive DeviceStatus where
| standby
| active
| unknown
deriving DecidableEq, Repr

/-- Connection status enumeration (lumagen.constants.ConnectionStatus). -/
inductive ConnectionStatus where
| connected
| disconnected
deriving DecidableEq, Repr

/-- DeviceInfo block owned by the device manager; the coordinator treats it as
opaque.  Only the fields the embedded code reads are modelled. -/
structure DeviceInfo where
  model_name : String
  logical_input : Option Int
  input_memory : Option String
deriving DecidableEq, Repr

/-- The externally observable state of the device manager at one instant:
the accessors the coordinator reads (device_info, is_connected, is_alive,
device_status) plus the source-label list used by select.py. -/
structure DMState where
  device_info : Option DeviceInfo
  is_connected : Bool
  is_alive : Bool
  device_status : DeviceStatus
  source_list : List String
deriving DecidableEq, Repr

/-- LumagenData dataclass (coordinator.py lines 26-33): the published
snapshot.  `device_status` is an Option because `_handle_power_state_change`
stores the raw event payload value, which may be absent. -/
structure LumagenData where
  device_info : Option DeviceInfo
  is_connected : Bool
  is_alive : Bool
  device_status : Option DeviceStatus
deriving DecidableEq, Repr

/-- The four-field snapshot construction that appears verbatim in
`_on_device_event`, `_handle_connection_state` and `_async_update_data`:
every field is read from the device manager. -/
def snapshotOfDM (dm : DMState) : LumagenData :=
  { device_info := dm.device_info
    is_connected := dm.is_connected
    is_alive := dm.is_alive
    device_status := some dm.device_status }

/-- Device-manager calls made by the embedded code (executor commands,
connection close, listener unregistration). -/
inductive Call where
| getAll
| getLabels
| selectInput (idx : Nat)
| powerOn
| standby
| navCommand (method : String)
| close
| unregister (eventName : String)
deriving DecidableEq, Repr

/-- Issue one device-manager call.  The environment decides through `fails`
whether the call raises; the result is the trace of calls made together with
whether an exception propagates. -/
def callDM (fails : Call → Bool) (c : Call) : List Call × Bool :=
  ([c], fails c)

/-- A `try ... except Exception: log` block around a fallible action: the
trace is kept, the exception is swallowed. -/
def catchAll (x : List Call × Bool) : List Call × Bool :=
  (x.1, false)

/-- Background tasks the coordinator spawns with `asyncio.create_task`. -/
inductive BgTask where
| delayedRefreshOnPowerOn
deriving DecidableEq, Repr

/-- Delay (in time units / seconds) a background task sleeps before acting:
`_delayed_refresh_on_power_on` starts with `await asyncio.sleep(5)`. -/
def taskDelay : BgTask → Nat
| .delayedRefreshOnPowerOn => 5

/-- Body of a background task after its sleep.
`_delayed_refresh_on_power_on` issues `executor.get_all()` inside a
`try/except` that logs and swallows any failure. -/
def runBgTask (fails : Call → Bool) : BgTask → List Call × Bool
| .delayedRefreshOnPowerOn => catchAll (callDM fails Call.getAll)

/-- Events delivered by the device manager's dispatcher.  `attrUpdate` covers
the nine plain attribute events (input_labels, physical_input_selected,
current_source_content_aspect, detected_source_aspect, source_mode,
source_vertical_rate, source_dynamic_range, is_alive ...); `deviceStatus`
and `connectionState` carry the payload fields the dedicated handlers read
(`value` and `state`, possibly absent). -/
inductive Event where
| deviceStatus (value : Option DeviceStatus)
| attrUpdate (name : String) (value : Option String)
| connectionState (state : Option ConnectionStatus)
deriving DecidableEq, Repr

/-- Result of running one event handler: the snapshot it publishes through
`async_set_updated_data`, the device-manager calls it makes inline (with the
delay, within the handler, before each call), the background tasks it
spawns, and whether it lets an exception escape. -/
structure HandlerResult where
  published : LumagenData
  timedCalls : List (Nat × Call)
  scheduled : List BgTask
  raised : Bool
deriving DecidableEq, Repr

/-- `_on_device_event` (coordinator.py lines 111-125): reads the four current
device-manager fields, builds a LumagenData and publishes it.  The payload
`value` is only logged. -/
def on_device_event (dm : DMState) : HandlerResult :=
  { published := snapshotOfDM dm
    timedCalls := []
    scheduled := []
    raised := false }

/-- `_handle_power_state_change` (coordinator.py lines 127-146):
`new_status` is the event payload value, `old_status` the status of the
previous coordinator data (None when there is no prior data).  On a
STANDBY to ACTIVE transition a delayed refresh task is spawned.  The
published snapshot takes device_info/is_connected/is_alive from the device
manager but device_status from the event payload. -/
def handle_power_state_change (prevData : Option LumagenData) (dm : DMState)
    (value : Option DeviceStatus) : HandlerResult :=
  let oldStatus : Option DeviceStatus :=
    match prevData with
    | some d => d.device_status
    | none => none
  { published :=
      { device_info := dm.device_info
        is_connected := dm.is_connected
        is_alive := dm.is_alive
        device_status := value }
    timedCalls := []
    scheduled :=
      if oldStatus = some DeviceStatus.standby ∧ value = some DeviceStatus.active
      then [BgTask.delayedRefreshOnPowerOn]
      else []
    raised := false }

/-- `_handle_connection_state` (coordinator.py lines 158-180): when the
payload state is CONNECTED it sleeps 1 unit then issues
`executor.get_labels(...)` inside a try/except that logs any failure; in
every case it then publishes a snapshot built from the current
device-manager fields. -/
def handle_connection_state (fails : Call → Bool) (dm : DMState)
    (state : Option ConnectionStatus) : HandlerResult :=
  if state = some ConnectionStatus.connected then
    let fetch := catchAll (callDM fails Call.getLabels)
    { published := snapshotOfDM dm
      timedCalls := fetch.1.map (fun c => (1, c))
      scheduled := []
      raised := fetch.2 }
  else
    { published := snapshotOfDM dm
      timedCalls := []
      scheduled := []
      raised := false }

/-- `_async_update_data` (coordinator.py lines 182-194): returns the current
device-manager fields as a LumagenData; the second component records that no
exception is raised. -/
def async_update_data (dm : DMState) : LumagenData × Bool :=
  ({ device_info := dm.device_info
     is_connected := dm.is_connected
     is_alive := dm.is_alive
     device_status := some dm.device_status }, false)

/-- Dispatch of one incoming event to its registered handler
(`_setup_event_listeners`): device_status events go to the dedicated power
handler, connection_state events to `_handle_connection_state`, all other
attribute events to `_on_device_event`. -/
def handleEvent (fails : Call → Bool) (prevData : Option LumagenData)
    (dm : DMState) : Event → HandlerResult
| Event.deviceStatus v => handle_power_state_change prevData dm v
| Event.attrUpdate _ _ => on_device_event dm
| Event.connectionState s => handle_connection_state fails dm s

/-- Coordinator run state over a sequence of events: the current coordinator
data (`self.data`, None before the first publication), the list of all
snapshots published so far, the inline device-manager calls made so far and
the background tasks spawned so far. -/
structure RunState where
  data : Option LumagenData
  pubs : List LumagenData
  calls : List (Nat × Call)
  tasks : List BgTask
deriving DecidableEq, Repr

/-- Run state before any event: no data, no publications, no calls, no
tasks. -/
def initialRun : RunState :=
  { data := none, pubs := [], calls := [], tasks := [] }

/-- Deliver one event, paired with the device-manager state at its handling
time, to the coordinator: the handler runs, its snapshot becomes the current
data and is appended to the publication list, and its calls and spawned
tasks are recorded. -/
def stepEvent (fails : Call → Bool) (s : RunState) (edm : Event × DMState) :
    RunState :=
  let r := handleEvent fails s.data edm.2 edm.1
  { data := some r.published
    pubs := s.pubs ++ [r.published]
    calls := s.calls ++ r.timedCalls
    tasks := s.tasks ++ r.scheduled }

/-- Deliver a sequence of events in order, each with the device-manager state
current when it is handled. -/
def processEvents (fails : Call → Bool) (s : RunState) :
    List (Event × DMState) → RunState
| [] => s
| e :: rest => processEvents fails (stepEvent fails s e) rest

/-- Spec-side description of the snapshot published for one event (used to
state the amended form of the publication claim): device_info, is_connected
and is_alive always come from the device manager at handling time;
device_status comes from the device manager too, except for device_status
events, where it is the event payload value. -/
def specPublication : Event × DMState → LumagenData
| (Event.deviceStatus v, dm) =>
    { device_info := dm.device_info
      is_connected := dm.is_connected
      is_alive := dm.is_alive
      device_status := v }
| (Event.attrUpdate _ _, dm) => snapshotOfDM dm
| (Event.connectionState _, dm) => snapshotOfDM dm

/-- Last element of a list, with a default for the empty list. -/
def lastOr (a : Option LumagenData) : List LumagenData → Option LumagenData
| [] => a
| x :: xs => lastOr (some x) xs

/-- Coordinator object state relevant to the listener lifecycle: the current
data and the recorded (event-name, handler) registrations, identified here
by their event names. -/
structure Coord where
  data : Option LumagenData
  event_listeners : List String
deriving DecidableEq, Repr

/-- The ten registrations made by `_setup_event_listeners`
(coordinator.py lines 57-103), in registration order. -/
def setupListeners : List String :=
  ["device_status", "input_labels", "physical_input_selected",
   "current_source_content_aspect", "detected_source_aspect", "source_mode",
   "source_vertical_rate", "source_dynamic_range", "is_alive",
   "connection_state"]

/-- Coordinator state right after `__init__`: no data yet, the ten listeners
registered. -/
def initCoord : Coord :=
  { data := none, event_listeners := setupListeners }

/-- `_cleanup_event_listeners` (coordinator.py lines 196-216): when the
dispatcher has no `unregister_listener` the method returns early, leaving
the recorded list untouched; otherwise it unregisters every recorded pair
(each inside a try/except that logs and continues) and clears the list. -/
def cleanup_event_listeners (hasUnregister : Bool) (c : Coord) :
    Coord × List Call :=
  if hasUnregister then
    ({ data := c.data, event_listeners := [] },
     c.event_listeners.map Call.unregister)
  else
    (c, [])

/-- `async_shutdown` (coordinator.py lines 218-231): clean up the event
listeners, then call `device_manager.close()` inside a try/except that logs
any failure.  The device manager reference is never cleared, so every
invocation reaches the close call.  Pending background tasks are not
touched.  Result: the new coordinator state, the calls made, and whether an
exception propagates. -/
def async_shutdown (hasUnregister : Bool) (fails : Call → Bool) (c : Coord) :
    Coord × List Call × Bool :=
  let r := cleanup_event_listeners hasUnregister c
  let cl := catchAll (callDM fails Call.close)
  (r.1, r.2 ++ cl.1, cl.2)

/-- Two consecutive `async_shutdown` invocations, accumulating the calls of
both and whether either raised. -/
def shutdownTwice (hasUnregister : Bool) (fails : Call → Bool) (c : Coord) :
    Coord × List Call × Bool :=
  let r1 := async_shutdown hasUnregister fails c
  let r2 := async_shutdown hasUnregister fails r1.1
  (r2.1, r1.2.1 ++ r2.2.1, r1.2.2 || r2.2.2)

/-- Operations of a timed system run: deliver an event (with the
device-manager state at that moment) or invoke `async_shutdown`. -/
inductive SysOp where
| deliverEvent (e : Event) (dm : DMState)
| shutdown
deriving DecidableEq, Repr

/-- Timed system state: the coordinator object, the pending background tasks
with their absolute fire times, and the trace of (time, call) pairs. -/
structure Sys where
  coord : Coord
  pending : List (Nat × BgTask)
  trace : List (Nat × Call)
deriving DecidableEq, Repr

/-- Initial timed system state. -/
def initSys : Sys :=
  { coord := initCoord, pending := [], trace := [] }

/-- One timed step.  Delivering an event at time t runs its handler: the
snapshot becomes the coordinator data, the handler's inline calls land at
t plus their in-handler delay, and each spawned task is recorded with fire
time t plus its sleep.  Invoking shutdown at time t applies
`async_shutdown` to the coordinator object; the pending task list is
unchanged because `async_shutdown` holds no task references and cancels
nothing. -/
def sysStep (fails : Call → Bool) (hasUnregister : Bool) (s : Sys) :
    Nat × SysOp → Sys
| (t, SysOp.deliverEvent e dm) =>
    let r := handleEvent fails s.coord.data dm e
    { coord := { data := some r.published
                 event_listeners := s.coord.event_listeners }
      pending := s.pending ++ r.scheduled.map (fun tk => (t + taskDelay tk, tk))
      trace := s.trace ++ r.timedCalls.map (fun dc => (t + dc.1, dc.2)) }
| (t, SysOp.shutdown) =>
    let r := async_shutdown hasUnregister fails s.coord
    { coord := r.1
      pending := s.pending
      trace := s.trace ++ r.2.1.map (fun c => (t, c)) }

/-- Calls made by a list of pending tasks when the event loop runs each of
them at its fire time. -/
def drainCalls (fails : Call → Bool) : List (Nat × BgTask) → List (Nat × Call)
| [] => []
| (ft, tk) :: rest =>
    (runBgTask fails tk).1.map (fun c => (ft, c)) ++ drainCalls fails rest

/-- Run a timed sequence of operations, then let the event loop run every
still-pending background task to completion at its fire time (tasks created
with `asyncio.create_task` keep running unless someone cancels them). -/
def runSystem (fails : Call → Bool) (hasUnregister : Bool)
    (ops : List (Nat × SysOp)) : Sys :=
  let s := ops.foldl (sysStep fails hasUnregister) initSys
  { coord := s.coord
    pending := []
    trace := s.trace ++ drainCalls fails s.pending }

/-- First index of a string in a list (Python `list.index`, first
occurrence), or none when absent (in which case `list.index` raises
ValueError). -/
def findIndex (x : String) : List String → Option Nat
| [] => none
| a :: rest => if a = x then some 0 else (findIndex x rest).map (fun i => i + 1)

/-- `_select_input_source` (select.py lines 48-63): look the label up in the
device manager's source list; on a hit send `executor.input(index + 1)`
(the list is 0-indexed, the device expects 1-indexed inputs); on a
ValueError log and return without sending anything.  Result: the calls made
and whether the lookup raised out of the function. -/
def select_input_source (source_list : List String) (option : String) :
    List Call × Bool :=
  match findIndex option source_list with
  | some i => ([Call.selectInput (i + 1)], false)
  | none => ([], false)

/-- COMMAND_MAP from remote.py lines 23-51: recognised remote commands and
the executor method each maps to. -/
def COMMAND_MAP : List (String × String) :=
  [("up", "up"), ("down", "down"), ("left", "left"), ("right", "right"),
   ("menu", "menu"), ("enter", "enter"), ("exit", "exit"), ("back", "back"),
   ("home", "home"), ("ok", "ok"), ("info", "info"), ("alt", "alt"),
   ("clear", "clear"), ("0", "zero"), ("1", "one"), ("2", "two"),
   ("3", "three"), ("4", "four"), ("5", "five"), ("6", "six"),
   ("7", "seven"), ("8", "eight"), ("9", "nine")]

/-- Lookup of a lowercased command name in COMMAND_MAP. -/
def lookupCommand (s : String) : Option String :=
  (COMMAND_MAP.find? (fun p => p.1 = s)).map (fun p => p.2)

/-- Body of the command loop in `async_send_command` (remote.py lines
132-150): for each command, a COMMAND_MAP hit calls the mapped executor
method (a failure escapes the loop and is re-raised by the outer except), a
miss is logged and skipped. -/
def execCommands (fails : Call → Bool) : List String → List Call × Bool
| [] => ([], false)
| c :: rest =>
    match lookupCommand c.toLower with
    | some m =>
        let r := callDM fails (Call.navCommand m)
        if r.2 then (r.1, true)
        else
          let rr := execCommands fails rest
          (r.1 ++ rr.1, rr.2)
    | none => execCommands fails rest

/-- `async_send_command` (remote.py lines 122-154): when the coordinator
data's device_status is not ACTIVE the method logs a warning and returns
without any device-manager call; otherwise it runs the command loop. -/
def async_send_command (status : Option DeviceStatus) (fails : Call → Bool)
    (cmds : List String) : List Call × Bool :=
  if status = some DeviceStatus.active then execCommands fails cmds
  else ([], false)

/-- `async_turn_on` of the remote (remote.py lines 102-110): always calls
`executor.power_on()`; a failure is logged and re-raised. -/
def remote_turn_on (fails : Call → Bool) : List Call × Bool :=
  callDM fails Call.powerOn

/-- `async_turn_off` of the remote (remote.py lines 112-120): always calls
`executor.standby()`; a failure is logged and re-raised. -/
def remote_turn_off (fails : Call → Bool) : List Call × Bool :=
  callDM fails Call.standby

/-- Local state of the power switch entity (switch.py): the optimistic
boolean, None when unset. -/
structure SwitchState where
  optimistic_state : Option Bool
deriving DecidableEq, Repr

/-- `is_on` (switch.py lines 69-75): the optimistic value when set,
otherwise whether the snapshot's device_status is ACTIVE. -/
def is_on (sw : SwitchState) (snap : LumagenData) : Bool :=
  match sw.optimistic_state with
  | some b => b
  | none => decide (snap.device_status = some DeviceStatus.active)

/-- `_handle_coordinator_update` (switch.py lines 77-81): clear the
optimistic state as soon as any coordinator snapshot arrives. -/
def handle_coordinator_update (_sw : SwitchState) : SwitchState :=
  { optimistic_state := none }

/-- `async_turn_on` of the switch (switch.py lines 83-95): call
`executor.power_on()`; on success set the optimistic state to True; on
failure set it to None and re-raise. -/
def switch_turn_on (fails : Call → Bool) (_sw : SwitchState) :
    SwitchState × List Call × Bool :=
  let r := callDM fails Call.powerOn
  if r.2 then ({ optimistic_state := none }, r.1, true)
  else ({ optimistic_state := some true }, r.1, false)

/-- `async_turn_off` of the switch (switch.py lines 97-109): call
`executor.standby()`; on success set the optimistic state to False; on
failure set it to None and re-raise. -/
def switch_turn_off (fails : Call → Bool) (_sw : SwitchState) :
    SwitchState × List Call × Bool :=
  let r := callDM fails Call.standby
  if r.2 then ({ optimistic_state := none }, r.1, true)
  else ({ optimistic_state := some false }, r.1, false)

/-- Python list subscription `l[i]` for a non-negative in-range index, and an
IndexError outside that range (the caller below only subscripts under a
bounds guard). -/
def pyListIndex (l : List String) (i : Int) : Except String String :=
  if 0 ≤ i ∧ i < (l.length : Int) then
    match l.get? i.toNat with
    | some s => Except.ok s
    | none => Except.error "IndexError"
  else Except.error "IndexError"

/-- `current_option` for the input_source select entity (select.py lines
221-237): read `data.device_info.logical_input` (an AttributeError when
device_info is None), then return `source_list[logical_input]` when
logical_input is not None, the source list is a list, and the index is in
range; in every other case return None.  The source list argument is None
when the device manager's source_list is not a list. -/
def current_option_input_source (data : LumagenData)
    (source_list : Option (List String)) : Except String (Option String) :=
  match data.device_info with
  | none => Except.error "AttributeError"
  | some info =>
    match info.logical_input, source_list with
    | some li, some l =>
        if 0 ≤ li ∧ li < (l.length : Int) then (pyListIndex l li).map some
        else Except.ok none
    | _, _ => Except.ok none

/-- Whether an Except value is an error. -/
def exceptIsError : Except String (Option String) → Bool
| Except.error _ => true
| Except.ok _ => false

/-- Adjacent-distinctness of a reported connection-state stream: each
reported state differs from the one reported just before it (the device
manager announces connection_state on transitions). -/
def distinctSteps (prev : Option ConnectionStatus) :
    List (Option ConnectionStatus) → Bool
| [] => true
| s :: rest => decide (s ≠ prev) && distinctSteps s rest

/-- Number of transitions to CONNECTED in a reported stream: positions whose
state is CONNECTED while the previously reported state was not. -/
def connectedTransitions (prev : Option ConnectionStatus) :
    List (Option ConnectionStatus) → Nat
| [] => 0
| s :: rest =>
    (if s = some ConnectionStatus.connected ∧ prev ≠ some ConnectionStatus.connected
     then 1 else 0) + connectedTransitions s rest

/-- Concrete device-manager state used by witnesses and counterexamples: a
connected device in standby. -/
def dmStandbyEx : DMState :=
  { device_info := none, is_connected := true, is_alive := true,
    device_status := DeviceStatus.standby, source_list := [] }

/-- Concrete device-manager state with the transport disconnected. -/
def dmDisconnectedEx : DMState :=
  { device_info := none, is_connected := false, is_alive := false,
    device_status := DeviceStatus.standby, source_list := [] }

/-- Concrete snapshot whose device_info is absent. -/
def dataNoInfoEx : LumagenData :=
  { device_info := none, is_connected := false, is_alive := false,
    device_status := none }

/-- Concrete DeviceInfo block with logical input 1. -/
def infoEx : DeviceInfo :=
  { model_name := "RadiancePro", logical_input := some 1, input_memory := none }

/-- Concrete snapshot carrying infoEx, connected and active. -/
def dataWithInfoEx : LumagenData :=
  { device_info := some infoEx, is_connected := true, is_alive := true,
    device_status := some DeviceStatus.active }

/-- The snapshot each handler publishes is the spec-side publication of its
event and device-manager state, independently of the previous data. -/
theorem handleEvent_published (fails : Call → Bool) (prev : Option LumagenData)
    (dm : DMState) (e : Event) :
    (handleEvent fails prev dm e).published = specPublication (e, dm) := by
  cases e with
  | deviceStatus v => rfl
  | attrUpdate n v => rfl
  | connectionState st =>
      simp only [handleEvent, handle_connection_state, specPublication]
      split <;> rfl

/-- The inline calls each handler makes depend only on the event and the
device-manager state. -/
def eventCalls : Event × DMState → List (Nat × Call)
| (Event.connectionState st, _) =>
    if st = some ConnectionStatus.connected then [(1, Call.getLabels)] else []
| (Event.deviceStatus _, _) => []
| (Event.attrUpdate _ _, _) => []

/-- Inline calls of the events of a sequence, in order. -/
def callsOf : List (Event × DMState) → List (Nat × Call)
| [] => []
| e :: rest => eventCalls e ++ callsOf rest

theorem handleEvent_timedCalls (fails : Call → Bool) (prev : Option LumagenData)
    (dm : DMState) (e : Event) :
    (handleEvent fails prev dm e).timedCalls = eventCalls (e, dm) := by
  cases e with
  | deviceStatus v => rfl
  | attrUpdate n v => rfl
  | connectionState st =>
      simp only [handleEvent, handle_connection_state, eventCalls]
      split <;> rfl

/-- Characterization of a coordinator run: the publications are exactly the
spec-side publications of the delivered events, the current data is the last
of them, and the inline calls are those of the events. -/
theorem processEvents_char (fails : Call → Bool) :
    ∀ (evs : List (Event × DMState)) (s : RunState),
      (processEvents fails s evs).pubs = s.pubs ++ evs.map specPublication ∧
      (processEvents fails s evs).data = lastOr s.data (evs.map specPublication) ∧
      (processEvents fails s evs).calls = s.calls ++ callsOf evs := by
  intro evs
  induction evs with
  | nil => intro s; simp [processEvents, lastOr, callsOf]
  | cons e rest ih =>
      intro s
      obtain ⟨ev, dm⟩ := e
      obtain ⟨h1, h2, h3⟩ := ih (stepEvent fails s (ev, dm))
      refine ⟨?_, ?_, ?_⟩
      · rw [processEvents, h1]
        simp [stepEvent, handleEvent_published, List.append_assoc]
      · rw [processEvents, h2]
        simp [stepEvent, handleEvent_published, lastOr, List.map_cons]
      · rw [processEvents, h3]
        simp [stepEvent, handleEvent_timedCalls, callsOf, List.append_assoc]

/-- A stream of connection_state events. -/
def connEvents (stream : List (Option ConnectionStatus × DMState)) :
    List (Event × DMState) :=
  stream.map (fun p => (Event.connectionState p.1, p.2))

theorem callsOf_connEvents :
    ∀ stream : List (Option ConnectionStatus × DMState),
      callsOf (connEvents stream)
        = ((stream.map Prod.fst).filter
            (fun s => decide (s = some ConnectionStatus.connected))).map
            (fun _ => ((1 : Nat), Call.getLabels)) := by
  intro stream
  induction stream with
  | nil => rfl
  | cons p rest ih =>
      obtain ⟨st, dm⟩ := p
      simp only [connEvents, List.map_cons, callsOf, eventCalls, List.filter]
      by_cases h : st = some ConnectionStatus.connected
      · simp [h, connEvents] at ih ⊢
        exact ih
      · simp [h, connEvents] at ih ⊢
        exact ih

/-- With adjacent-distinct reported states, the CONNECTED events are exactly
the transitions to CONNECTED. -/
theorem filter_connected_eq_transitions :
    ∀ (states : List (Option ConnectionStatus)) (prev : Option ConnectionStatus),
      distinctSteps prev states = true →
      (states.filter (fun s => decide (s = some ConnectionStatus.connected))).length
        = connectedTransitions prev states := by
  intro states
  induction states with
  | nil => intro prev _; rfl
  | cons s rest ih =>
      intro prev h
      rw [distinctSteps, Bool.and_eq_true] at h
      have hne : s ≠ prev := of_decide_eq_true h.1
      rw [connectedTransitions]
      by_cases hs : s = some ConnectionStatus.connected
      · have hprev : prev ≠ some ConnectionStatus.connected := by
          intro hp; exact hne (hs.trans hp.symm)
        rw [if_pos ⟨hs, hprev⟩]
        have hf : List.filter (fun x => decide (x = some ConnectionStatus.connected)) (s :: rest)
            = s :: List.filter (fun x => decide (x = some ConnectionStatus.connected)) rest := by
          simp [hs]
        rw [hf, List.length_cons, ih s h.2]
        omega
      · rw [if_neg (fun hc => hs hc.1)]
        have hf : List.filter (fun x => decide (x = some ConnectionStatus.connected)) (s :: rest)
            = List.filter (fun x => decide (x = some ConnectionStatus.connected)) rest := by
          simp [hs]
        rw [hf, ih s h.2]
        omega

/-- findIndex returns none exactly when the element is absent. -/
theorem findIndex_none_iff (x : String) :
    ∀ l : List String, findIndex x l = none ↔ x ∉ l := by
  intro l
  induction l with
  | nil => simp [findIndex]
  | cons a rest ih =>
      simp only [findIndex, List.mem_cons]
      by_cases h : a = x
      · simp [h]
      · rw [if_neg h]
        constructor
        · intro hn hm
          rcases hm with hm | hm
          · exact h hm.symm
          · have hnone : findIndex x rest = none := by
              cases hf : findIndex x rest with
              | none => rfl
              | some i => rw [hf] at hn; exact absurd hn (by simp)
            exact (ih.mp hnone) hm
        · intro hn
          have hnone : findIndex x rest = none :=
            ih.mpr (fun hm => hn (Or.inr hm))
          rw [hnone]
          rfl

/-- findIndex finds the element at the returned position. -/
theorem findIndex_some_get (x : String) :
    ∀ (l : List String) (i : Nat), findIndex x l = some i → l.get? i = some x := by
  intro l
  induction l with
  | nil => intro i h; exact absurd h (by simp [findIndex])
  | cons a rest ih =>
      intro i h
      rw [findIndex] at h
      by_cases ha : a = x
      · rw [if_pos ha] at h
        cases h
        simpa using ha
      · rw [if_neg ha] at h
        cases hf : findIndex x rest with
        | none => rw [hf] at h; exact absurd h (by simp)
        | some j =>
            rw [hf] at h
            simp only [Option.map] at h
            cases h
            exact ih j hf

/-- A membership-indexed read: get? is some below the length. -/
theorem get?_isSome_of_lt :
    ∀ (l : List String) (n : Nat), n < l.length → (l.get? n).isSome = true := by
  intro l
  induction l with
  | nil => intro n h; exact absurd h (by simp)
  | cons a t ih =>
      intro n h
      cases n with
      | zero => rfl
      | succ m => exact ih m (Nat.lt_of_succ_lt_succ h)

/-- Claim C1, counterexample: a single device_status event with payload
value ACTIVE, handled while the device manager reports STANDBY, leaves the
consumer-visible snapshot different from one freshly constructed from the
device manager's field values — the power handler stores the event payload,
not the manager's device_status. -/
theorem C1_counterexample :
    (processEvents (fun _ => false) initialRun
        [(Event.deviceStatus (some DeviceStatus.active), dmStandbyEx)]).data
      ≠ some (snapshotOfDM dmStandbyEx) := by
  decide

/-- Claim C1 as amended: for every sequence of N events, exactly N snapshot
publications occur (one full-state replace per event, no coalescing), each
published snapshot being the spec publication of its event — deviceInfo,
isConnected and isAlive from the device manager at handling time, and
deviceStatus likewise except for device_status events, where it is the
event's payload value — and the consumer-visible snapshot after the
sequence is the last of these. -/
theorem C1_publication :
    ∀ (fails : Call → Bool) (evs : List (Event × DMState)),
      (processEvents fails initialRun evs).pubs = evs.map specPublication ∧
      (processEvents fails initialRun evs).pubs.length = evs.length ∧
      (processEvents fails initialRun evs).data
        = lastOr none (evs.map specPublication) := by
  intro fails evs
  obtain ⟨h1, h2, _⟩ := processEvents_char fails evs initialRun
  refine ⟨?_, ?_, ?_⟩
  · simpa [initialRun] using h1
  · have : (processEvents fails initialRun evs).pubs = evs.map specPublication := by
      simpa [initialRun] using h1
    rw [this, List.length_map]
  · simpa [initialRun] using h2

/-- Claim C2: for a device_status event, the published snapshot carries the
new status (payload value) together with the device manager's current
device_info, is_connected and is_alive; a delayed refresh task is scheduled
exactly when the previously published snapshot's status is STANDBY and the
new value is ACTIVE; that task sleeps 5 units, then issues get_all exactly
once, swallowing any failure; the handler itself never raises. -/
theorem C2_power_refresh :
    ∀ (prev : Option LumagenData) (dm : DMState) (v : Option DeviceStatus)
      (fails : Call → Bool),
      (handle_power_state_change prev dm v).published.device_status = v ∧
      (handle_power_state_change prev dm v).published.device_info = dm.device_info ∧
      (handle_power_state_change prev dm v).published.is_connected = dm.is_connected ∧
      (handle_power_state_change prev dm v).published.is_alive = dm.is_alive ∧
      (handle_power_state_change prev dm v).scheduled
        = (if (match prev with
               | some d => d.device_status
               | none => none) = some DeviceStatus.standby
              ∧ v = some DeviceStatus.active
           then [BgTask.delayedRefreshOnPowerOn] else []) ∧
      (handle_power_state_change prev dm v).raised = false ∧
      taskDelay BgTask.delayedRefreshOnPowerOn = 5 ∧
      (runBgTask fails BgTask.delayedRefreshOnPowerOn).1 = [Call.getAll] ∧
      (runBgTask fails BgTask.delayedRefreshOnPowerOn).2 = false := by
  intro prev dm v fails
  exact ⟨rfl, rfl, rfl, rfl, rfl, rfl, rfl, rfl, rfl⟩

/-- Timed run used for the shutdown-cancellation claim: a device_status
STANDBY event at time 0, a device_status ACTIVE event at time 1 (scheduling
the delayed refresh, fire time 6), and a shutdown at the given time. -/
def shutdownRunOps (ts : Nat) : List (Nat × SysOp) :=
  [(0, SysOp.deliverEvent (Event.deviceStatus (some DeviceStatus.standby)) dmStandbyEx),
   (1, SysOp.deliverEvent (Event.deviceStatus (some DeviceStatus.active)) dmStandbyEx),
   (ts, SysOp.shutdown)]

/-- Claim C3, counterexample: shutdown runs at time 2, before the 5-unit
delay of the refresh task scheduled at time 1 elapses (fire time 6), yet
get_all is still invoked at time 6 — async_shutdown keeps no task handles
and cancels nothing. -/
theorem C3_counterexample :
    2 < 1 + taskDelay BgTask.delayedRefreshOnPowerOn ∧
    (2, Call.close) ∈ (runSystem (fun _ => false) true (shutdownRunOps 2)).trace ∧
    (6, Call.getAll) ∈ (runSystem (fun _ => false) true (shutdownRunOps 2)).trace := by
  decide

/-- Claim C3 as amended: shutdown does not cancel the scheduled background
refresh.  Whenever the delayed refresh has been scheduled (here at time 1,
fire time 6), get_all is invoked at the fire time for every shutdown time
and every failure behaviour of the device manager. -/
theorem C3_no_cancellation :
    ∀ (ts : Nat) (fails : Call → Bool),
      (6, Call.getAll) ∈ (runSystem fails true (shutdownRunOps ts)).trace := by
  intro ts fails
  have h : (runSystem fails true (shutdownRunOps ts)).trace
      = ((shutdownRunOps ts).foldl (sysStep fails true) initSys).trace
          ++ ((runBgTask fails BgTask.delayedRefreshOnPowerOn).1.map
                (fun c => (6, c)) ++ []) := rfl
  rw [h]
  simp [runBgTask, catchAll, callDM]

/-- Claim C5, counterexample: calling async_shutdown twice on a freshly
initialized coordinator produces two device-connection close calls, not at
most one — the close is issued unconditionally on every invocation. -/
theorem C5_counterexample :
    ¬ ((shutdownTwice true (fun _ => false) initCoord).2.1.filter
        (fun c => decide (c = Call.close))).length ≤ 1 := by
  decide

/-- Claim C5 as amended: calling shutdown twice raises no error, and the
recorded listener pairs are unregistered at most once (only on the first
call, and only when the dispatcher supports unregistration — with an
unregister-less dispatcher the cleanup is skipped); however each invocation
issues one close call, so two invocations close twice, every failure being
caught. -/
theorem C5_shutdown_twice :
    ∀ (hasUnregister : Bool) (fails : Call → Bool) (c : Coord),
      (shutdownTwice hasUnregister fails c).2.2 = false ∧
      (shutdownTwice hasUnregister fails c).2.1
        = (if hasUnregister then c.event_listeners.map Call.unregister else [])
            ++ [Call.close, Call.close] := by
  intro hasUnregister fails c
  cases hasUnregister <;>
    simp [shutdownTwice, async_shutdown, cleanup_event_listeners, catchAll, callDM]

/-- Claim C4: over a stream of connection_state events whose reported states
are transition notifications (each differs from the previously reported
one), the label fetch is issued, at a 1-unit delay, exactly once per
transition to CONNECTED — the calls of the run are one (1, getLabels) per
CONNECTED event, and their number equals the number of transitions to
CONNECTED; moreover the handler never raises (the fetch failure is caught
locally), publishes a snapshot built from the device manager's current
fields whether or not the fetch succeeded, and makes no call on
non-CONNECTED events. -/
theorem C4_connect_label_fetch :
    ∀ (fails : Call → Bool) (stream : List (Option ConnectionStatus × DMState))
      (prev : Option ConnectionStatus),
      distinctSteps prev (stream.map Prod.fst) = true →
      (processEvents fails initialRun (connEvents stream)).calls
        = ((stream.map Prod.fst).filter
            (fun s => decide (s = some ConnectionStatus.connected))).map
            (fun _ => ((1 : Nat), Call.getLabels)) ∧
      (processEvents fails initialRun (connEvents stream)).calls.length
        = connectedTransitions prev (stream.map Prod.fst) ∧
      (∀ (dm : DMState) (st : Option ConnectionStatus),
        (handle_connection_state fails dm st).raised = false ∧
        (handle_connection_state fails dm st).published = snapshotOfDM dm ∧
        (st ≠ some ConnectionStatus.connected →
          (handle_connection_state fails dm st).timedCalls = [])) := by
  intro fails stream prev h
  obtain ⟨_, _, h3⟩ := processEvents_char fails (connEvents stream) initialRun
  have hcalls : (processEvents fails initialRun (connEvents stream)).calls
      = callsOf (connEvents stream) := by
    simpa [initialRun] using h3
  refine ⟨?_, ?_, ?_⟩
  · rw [hcalls, callsOf_connEvents]
  · rw [hcalls, callsOf_connEvents, List.length_map,
        filter_connected_eq_transitions _ prev h]
  · intro dm st
    refine ⟨?_, ?_, ?_⟩
    · unfold handle_connection_state
      split <;> rfl
    · unfold handle_connection_state
      split <;> rfl
    · intro hne
      unfold handle_connection_state
      rw [if_neg hne]

/-- Witness for C4: a single CONNECTED transition from an initially
unreported state yields exactly one label-fetch call at delay 1. -/
theorem C4_witness :
    (processEvents (fun _ => false) initialRun
        (connEvents [(some ConnectionStatus.connected, dmStandbyEx)])).calls
      = [(1, Call.getLabels)] := by
  have h := C4_connect_label_fetch (fun _ => false)
      [(some ConnectionStatus.connected, dmStandbyEx)] none (by decide)
  exact h.1.trans (by decide)

/-- Claim C6: input selection resolves the label to its first index in the
device manager's source list plus one and sends exactly that selectInput
command; an absent label results in no device-manager call and no raised
error. -/
theorem C6_input_selection :
    ∀ (S : List String) (L : String),
      (∀ i : Nat, findIndex L S = some i →
          select_input_source S L = ([Call.selectInput (i + 1)], false) ∧
          S.get? i = some L) ∧
      (L ∈ S → ∃ i : Nat, findIndex L S = some i ∧
          select_input_source S L = ([Call.selectInput (i + 1)], false)) ∧
      (L ∉ S → select_input_source S L = ([], false)) := by
  intro S L
  refine ⟨?_, ?_, ?_⟩
  · intro i h
    exact ⟨by simp [select_input_source, h], findIndex_some_get L S i h⟩
  · intro h
    cases hf : findIndex L S with
    | none => exact absurd h ((findIndex_none_iff L S).mp hf)
    | some i => exact ⟨i, rfl, by simp [select_input_source, hf]⟩
  · intro h
    have hn : findIndex L S = none := (findIndex_none_iff L S).mpr h
    simp [select_input_source, hn]

/-- Witness for C6: with source list HDMI1, HDMI2, selecting HDMI2 sends
selectInput 2, and selecting the absent HDMI3 sends nothing. -/
theorem C6_witness :
    select_input_source ["HDMI1", "HDMI2"] "HDMI2"
      = ([Call.selectInput 2], false) ∧
    select_input_source ["HDMI1", "HDMI2"] "HDMI3" = ([], false) := by
  constructor
  · exact ((C6_input_selection ["HDMI1", "HDMI2"] "HDMI2").1 1 (by decide)).1
  · exact (C6_input_selection ["HDMI1", "HDMI2"] "HDMI3").2.2 (by decide)

/-- Claim C7: while the last published snapshot's device_status is not
ACTIVE, async_send_command makes no device-manager call (and raises
nothing); the remote's power-on and standby requests always make exactly
their one call, independent of status. -/
theorem C7_command_gating :
    (∀ (status : Option DeviceStatus) (fails : Call → Bool)
       (cmds : List String),
       status ≠ some DeviceStatus.active →
       async_send_command status fails cmds = ([], false)) ∧
    (∀ fails : Call → Bool,
       (remote_turn_on fails).1 = [Call.powerOn] ∧
       (remote_turn_off fails).1 = [Call.standby]) := by
  constructor
  · intro status fails cmds h
    simp [async_send_command, h]
  · intro fails
    exact ⟨rfl, rfl⟩

/-- Witness for C7: with status STANDBY a navigation command produces zero
calls, while power on produces its single call. -/
theorem C7_witness :
    async_send_command (some DeviceStatus.standby) (fun _ => false) ["up"]
      = ([], false) ∧
    (remote_turn_on (fun _ => false)).1 = [Call.powerOn] := by
  exact ⟨C7_command_gating.1 (some DeviceStatus.standby) (fun _ => false)
          ["up"] (by decide),
        (C7_command_gating.2 (fun _ => false)).1⟩

/-- Claim C8: the manual refresh never raises and returns a snapshot built
from the device manager's currently reported values; in particular, while
the manager reports is_connected false the returned snapshot has
is_connected false. -/
theorem C8_graceful_refresh :
    ∀ dm : DMState,
      (async_update_data dm).2 = false ∧
      (async_update_data dm).1 = snapshotOfDM dm ∧
      (dm.is_connected = false → (async_update_data dm).1.is_connected = false) := by
  intro dm
  exact ⟨rfl, rfl, fun h => h⟩

/-- Witness for C8: refreshing a disconnected device manager raises nothing
and reports is_connected false. -/
theorem C8_witness :
    (async_update_data dmDisconnectedEx).2 = false ∧
    (async_update_data dmDisconnectedEx).1.is_connected = false := by
  exact ⟨(C8_graceful_refresh dmDisconnectedEx).1,
         (C8_graceful_refresh dmDisconnectedEx).2.2 rfl⟩

/-- Claim C9: a successful power-on sets the optimistic state to True (and
standby to False) immediately after the single command call; is_on returns
the optimistic value while set and otherwise whether the snapshot's status
is ACTIVE; observing any coordinator update clears the optimistic state,
reverting is_on to the snapshot-derived value. -/
theorem C9_optimistic_power :
    ∀ (fails : Call → Bool) (sw : SwitchState) (snap : LumagenData),
      (fails Call.powerOn = false →
        (switch_turn_on fails sw).1 = { optimistic_state := some true } ∧
        (switch_turn_on fails sw).2.1 = [Call.powerOn]) ∧
      (fails Call.standby = false →
        (switch_turn_off fails sw).1 = { optimistic_state := some false } ∧
        (switch_turn_off fails sw).2.1 = [Call.standby]) ∧
      (∀ b : Bool, is_on { optimistic_state := some b } snap = b) ∧
      is_on { optimistic_state := none } snap
        = decide (snap.device_status = some DeviceStatus.active) ∧
      (handle_coordinator_update sw).optimistic_state = none ∧
      is_on (handle_coordinator_update sw) snap
        = decide (snap.device_status = some DeviceStatus.active) := by
  intro fails sw snap
  refine ⟨?_, ?_, fun b => rfl, rfl, rfl, rfl⟩
  · intro h
    constructor <;> simp [switch_turn_on, callDM, h]
  · intro h
    constructor <;> simp [switch_turn_off, callDM, h]

/-- Witness for C9: a successful power-on sets the optimistic state, and the
next coordinator update makes is_on follow the (ACTIVE) snapshot again. -/
theorem C9_witness :
    (switch_turn_on (fun _ => false) { optimistic_state := none }).1
      = { optimistic_state := some true } ∧
    is_on (handle_coordinator_update { optimistic_state := some true })
        dataWithInfoEx = true := by
  constructor
  · exact ((C9_optimistic_power (fun _ => false) { optimistic_state := none }
      dataWithInfoEx).1 rfl).1
  · have h := (C9_optimistic_power (fun _ => false)
      { optimistic_state := some true } dataWithInfoEx).2.2.2.2.2
    rw [h]
    decide

/-- Claim C10, counterexample: on a snapshot whose device_info is None the
property raises an AttributeError while reading logical_input, rather than
returning None. -/
theorem C10_counterexample :
    current_option_input_source dataNoInfoEx (some ["HDMI1"])
      = Except.error "AttributeError" ∧
    exceptIsError (current_option_input_source dataNoInfoEx (some ["HDMI1"]))
      = true := by
  exact ⟨rfl, rfl⟩

/-- Claim C10 as amended: for every snapshot whose device_info is present,
current_option returns the label at position logical_input of the source
list exactly when logical_input is non-None, the source list is a list and
0 <= logical_input < its length; in every other such case it returns None;
it never raises and never performs an out-of-range access.  (With
device_info equal to None the property raises AttributeError instead, as
the counterexample shows.) -/
theorem C10_current_option :
    ∀ (data : LumagenData) (info : DeviceInfo) (sl : Option (List String)),
      data.device_info = some info →
      exceptIsError (current_option_input_source data sl) = false ∧
      (∀ (li : Int) (l : List String),
        info.logical_input = some li → sl = some l →
        0 ≤ li → li < (l.length : Int) →
        current_option_input_source data sl = Except.ok (l.get? li.toNat) ∧
        (l.get? li.toNat).isSome = true) ∧
      (info.logical_input = none →
        current_option_input_source data sl = Except.ok none) ∧
      (sl = none → current_option_input_source data sl = Except.ok none) ∧
      (∀ (li : Int) (l : List String),
        info.logical_input = some li → sl = some l →
        ¬(0 ≤ li ∧ li < (l.length : Int)) →
        current_option_input_source data sl = Except.ok none) := by
  intro data info sl hinfo
  have key : current_option_input_source data sl
      = (match info.logical_input, sl with
         | some li, some l =>
             if 0 ≤ li ∧ li < (l.length : Int) then (pyListIndex l li).map some
             else Except.ok none
         | _, _ => Except.ok none) := by
    unfold current_option_input_source
    rw [hinfo]
  refine ⟨?_, ?_, ?_, ?_, ?_⟩
  · rw [key]
    cases hli : info.logical_input with
    | none => cases sl <;> rfl
    | some li =>
        cases sl with
        | none => rfl
        | some l =>
            show exceptIsError
              (if 0 ≤ li ∧ li < (l.length : Int) then (pyListIndex l li).map some
               else Except.ok none) = false
            by_cases hb : 0 ≤ li ∧ li < (l.length : Int)
            · rw [if_pos hb]
              obtain ⟨hb1, hb2⟩ := hb
              have hlt : li.toNat < l.length := by omega
              obtain ⟨s, hs⟩ :=
                Option.isSome_iff_exists.mp (get?_isSome_of_lt l li.toNat hlt)
              simp only [pyListIndex]
              rw [if_pos ⟨hb1, hb2⟩, hs]
              rfl
            · rw [if_neg hb]
              rfl
  · intro li l hli hsl hb1 hb2
    rw [key, hli, hsl]
    show (if 0 ≤ li ∧ li < (l.length : Int) then (pyListIndex l li).map some
          else Except.ok none)
        = Except.ok (l.get? li.toNat) ∧ (l.get? li.toNat).isSome = true
    rw [if_pos ⟨hb1, hb2⟩]
    have hlt : li.toNat < l.length := by omega
    obtain ⟨s, hs⟩ :=
      Option.isSome_iff_exists.mp (get?_isSome_of_lt l li.toNat hlt)
    constructor
    · simp only [pyListIndex]
      rw [if_pos ⟨hb1, hb2⟩, hs]
      rfl
    · rw [hs]
      rfl
  · intro hli
    rw [key, hli]
  · intro hsl
    rw [key, hsl]
    cases hli : info.logical_input <;> rfl
  · intro li l hli hsl hb
    rw [key, hli, hsl]
    show (if 0 ≤ li ∧ li < (l.length : Int) then (pyListIndex l li).map some
          else Except.ok none) = Except.ok none
    rw [if_neg hb]

/-- Witness for C10: with device_info present, logical input 1 and source
list HDMI1, HDMI2, the current option is HDMI2. -/
theorem C10_witness :
    current_option_input_source dataWithInfoEx (some ["HDMI1", "HDMI2"])
      = Except.ok (some "HDMI2") := by
  have h := (C10_current_option dataWithInfoEx infoEx
      (some ["HDMI1", "HDMI2"]) rfl).2.1 1 ["HDMI1", "HDMI2"] rfl rfl
      (by decide) (by decide)
  exact h.1.trans rfl

end Lumagen
